import Mathlib

/-!
Verification of the datareadtel register-block protocol.

The program is a RAM-backed UIO kernel module (`src/kernel/uio_sim_sensor.c`)
exposing a 4096-byte register page, plus a polling reader
(`src/examples/reader.c`) that mmaps the page read-only and prints four
float32 telemetry fields twenty times.

Shallow embedding choices:
* A region is a byte store `Nat → Nat`; `store8` keeps bytes reduced mod 256,
  and `read32` reassembles a little-endian 32-bit word.  A `float32` load is
  modelled by the 32-bit bit pattern it returns (the reader performs no
  floating-point arithmetic, it only loads and renders the value).
* Kernel-side external collaborators (`kzalloc` success, `uio_register_device`
  success) are boolean inputs to `sim_init`; reader-side collaborators
  (`open`/`mmap` success) are boolean inputs to `mainSim`.
* Memory operations the reader performs are instrumented as an `Access`
  trace, interpreted back onto a region by `applyAccesses`, so frame
  properties ("the reader never writes") are provable.
-/

namespace DataReadTel

/-- A 4096-byte register page, modelled as a byte store indexed by offset. -/
abbrev Region := Nat → Nat

/-- `MMIO_SIZE` from uio_sim_sensor.c. -/
def MMIO_SIZE : Nat := 4096

/-- `PAGE` from reader.c. -/
def PAGE : Nat := 4096

/-- The magic identity constant written at offset 0x000 by `sim_init`. -/
def MAGIC : Nat := 0x53554D31

/-- The packed version word written at offset 0x004 by `sim_init`
(major 1, minor 0 packed as `major <<< 16 ||| minor`). -/
def VERSION_WORD : Nat := 0x00010000

/-- The status word written at offset 0x008 by `sim_init` (nonzero = ready). -/
def STATUS_OK : Nat := 0x1

/-- The all-zero region produced by `kzalloc(MMIO_SIZE, GFP_KERNEL)`. -/
def zeroRegion : Region := fun _ => 0

/-- Store one byte (values kept reduced mod 256). -/
def store8 (r : Region) (off v : Nat) : Region :=
  fun i => if i = off then v % 256 else r i

/-- Store a 32-bit word little-endian, byte by byte, as the C cast
`*(u32 *)(mmio + off) = v` does on a little-endian target. -/
def store32 (r : Region) (off v : Nat) : Region :=
  store8 (store8 (store8 (store8 r off v) (off + 1) (v / 256))
    (off + 2) (v / 65536)) (off + 3) (v / 16777216)

/-- Load a 32-bit word little-endian from four consecutive bytes. -/
def read32 (r : Region) (off : Nat) : Nat :=
  r off % 256 + 256 * (r (off + 1) % 256) + 65536 * (r (off + 2) % 256)
    + 16777216 * (r (off + 3) % 256)

/-- The three header stores `sim_init` performs on the freshly
allocated region, in program order: magic, version, status. -/
def headerInit (r : Region) : Region :=
  store32 (store32 (store32 r 0x000 MAGIC) 0x004 VERSION_WORD) 0x008 STATUS_OK

/-- The register block as it stands when `sim_init` registers it. -/
def simRegion : Region := headerInit zeroRegion

/-- Kernel-module state: the static `mmio` pointer (`some r` when non-null,
holding the region contents it pointed at), whether the kzalloc'd block is
currently live, whether the UIO device is registered, and whether a memory
fault (double kfree) has occurred. -/
structure KState where
  mmio : Option Region
  allocated : Bool
  registered : Bool
  faulted : Bool

/-- Result of `sim_init`: 0, -ENOMEM or -ENODEV. -/
inductive InitRes
  | ok
  | ENOMEM
  | ENODEV
deriving DecidableEq, Repr

/-- `sim_init` from uio_sim_sensor.c.  `allocOk` models whether `kzalloc`
succeeds, `regOk` whether `uio_register_device` accepts the registration.
On a rejected registration the code calls `kfree(mmio)` but leaves the
static pointer set. -/
def sim_init (allocOk regOk : Bool) : KState × InitRes :=
  if allocOk = false then (⟨none, false, false, false⟩, .ENOMEM)
  else
    let r := headerInit zeroRegion
    if regOk then (⟨some r, true, true, false⟩, .ok)
    else (⟨some r, false, false, false⟩, .ENODEV)

/-- `kfree(mmio)`: a no-op on a null pointer; frees a live block; a second
free of the same non-null pointer is a double free, modelled as a fault. -/
def kfreeStep (s : KState) : KState :=
  match s.mmio with
  | none => s
  | some _ => if s.allocated then { s with allocated := false }
              else { s with faulted := true }

/-- `sim_exit` from uio_sim_sensor.c: `uio_unregister_device(&sim_uio)`
then `kfree(mmio)`.  The static `mmio` pointer is not cleared. -/
def sim_exit (s : KState) : KState :=
  kfreeStep { s with registered := false }

/-- Provider-side observable events, in program order. -/
inductive PEvent
  | allocEv (ok : Bool) (size : Nat)
  | storeEv (off v : Nat)
  | registerEv (ok : Bool)
  | kfreeEv
deriving DecidableEq, Repr

/-- The event trace of `sim_init`: allocation, the three header stores,
the registration attempt, and — on a rejected registration — the rollback
`kfree`. -/
def simInitEvents (allocOk regOk : Bool) : List PEvent :=
  if allocOk = false then [.allocEv false MMIO_SIZE]
  else
    [.allocEv true MMIO_SIZE,
     .storeEv 0x000 MAGIC, .storeEv 0x004 VERSION_WORD, .storeEv 0x008 STATUS_OK,
     .registerEv regOk] ++ (if regOk then [] else [.kfreeEv])

/-- Whole-system state for teardown: the provider plus whether some reader
still holds a mapping it never closed.  `sim_exit` does not consult the
reader side at all. -/
structure Sys where
  prov : KState
  readerMapped : Bool

/-- Teardown of the whole system: the provider unregisters and frees;
reader mappings are untouched (fire-and-forget). -/
def sysTeardown (s : Sys) : Sys :=
  { s with prov := sim_exit s.prov }

/-! Reader side (`src/examples/reader.c`). -/

/-- Telemetry field offset `ACCEL_X` (0x010). -/
def ACCEL_X : Nat := 0x010

/-- Telemetry field offset `ACCEL_Y` (0x014). -/
def ACCEL_Y : Nat := 0x014

/-- Telemetry field offset `ACCEL_Z` (0x018). -/
def ACCEL_Z : Nat := 0x018

/-- Telemetry field offset `AIRSPEED` (0x050). -/
def AIRSPEED : Nat := 0x050

/-- A single memory access on the mapped region. -/
inductive Access
  | load (off : Nat)
  | store (off v : Nat)
deriving DecidableEq, BEq, Repr

/-- Whether an access is a load. -/
def Access.isLoad : Access → Bool
  | .load _ => true
  | .store _ _ => false

/-- `r32` from reader.c: a single volatile 32-bit load at `base + off`,
modelled by the bit pattern it returns, instrumented with its access. -/
def r32 (base : Region) (off : Nat) : Nat × List Access :=
  (read32 base off, [Access.load off])

/-- One loop body's four field loads in program order, with the combined
access trace the four `r32` calls produce. -/
def sampleT (r : Region) : (Nat × Nat × Nat × Nat) × List Access :=
  let (ax, t1) := r32 r ACCEL_X
  let (ay, t2) := r32 r ACCEL_Y
  let (az, t3) := r32 r ACCEL_Z
  let (v, t4) := r32 r AIRSPEED
  ((ax, ay, az, v), t1 ++ t2 ++ t3 ++ t4)

/-- The four values one iteration samples. -/
def sample (r : Region) : Nat × Nat × Nat × Nat := (sampleT r).1

/-- The access trace of one sample. -/
def sampleAccesses : List Access :=
  [.load ACCEL_X, .load ACCEL_Y, .load ACCEL_Z, .load AIRSPEED]

/-- Reader-visible events: one rendered sample line (the `printf`), or one
`usleep(100000)` pause. -/
inductive Event
  | sampleOut (ax ay az v : Nat)
  | pause
deriving DecidableEq, Repr

/-- Whether an event is a rendered sample. -/
def Event.isSample : Event → Bool
  | .sampleOut _ _ _ _ => true
  | .pause => false

/-- The reader's main loop `for (i=0; i<20; ++i) { ...; printf; usleep }`,
generalised over the iteration count: each iteration samples the four
fields, renders them, then pauses. -/
def runEvents (r : Region) : Nat → List Event
  | 0 => []
  | n + 1 =>
    let ((ax, ay, az, v), _) := sampleT r
    Event.sampleOut ax ay az v :: Event.pause :: runEvents r n

/-- The memory accesses the main loop performs, per iteration the four
field loads of `sampleT`. -/
def runAccesses : Nat → List Access
  | 0 => []
  | n + 1 => sampleAccesses ++ runAccesses n

/-- Replay an access trace onto a region: loads leave it unchanged,
stores write. -/
def applyAccess (r : Region) : Access → Region
  | .load _ => r
  | .store off v => store32 r off v

/-- Replay a whole access trace onto a region. -/
def applyAccesses (r : Region) : List Access → Region
  | [] => r
  | a :: rest => applyAccesses (applyAccess r a) rest

/-- The header snapshot a test takes: magic and version words. -/
def headerSnapshot (r : Region) : Nat × Nat := (read32 r 0x000, read32 r 0x004)

/-- Bounds-checked 32-bit accessor over the 4096-byte page: `none` exactly
when the four-byte load would run past the end of the region. -/
def load32? (r : Region) (off : Nat) : Option Nat :=
  if off + 4 ≤ PAGE then some (read32 r off) else none

/-- Reader-side resolution/mapping errors from the error taxonomy. -/
inductive OpenError
  | NotFoundError
  | AccessError
  | SizeError
deriving DecidableEq, Repr

/-- What an identity resolves to: read permission and region size. -/
structure Resource where
  readable : Bool
  size : Nat
deriving DecidableEq, Repr

/-- A successfully mapped read-only view of the region. -/
structure MappedBlock where
  readOnly : Bool
deriving DecidableEq, Repr

/-- Modelled from the spec: the external mapping mechanism behind the
reader's `open`/`mmap` pair (identity resolution, permission check, and the
enforced 4096-byte size) is not part of this repository's sources; per the
spec, `open(identity)` fails with `NotFoundError` if the identity does not
resolve, `AccessError` if read permission is denied, `SizeError` if the
resolved size is not exactly 4096 bytes, and otherwise yields a read-only
view. -/
def openView (resolved : Option Resource) : Except OpenError MappedBlock :=
  match resolved with
  | none => .error .NotFoundError
  | some res =>
    if res.readable = false then .error .AccessError
    else if res.size = PAGE then .ok { readOnly := true }
    else .error .SizeError

/-- The default identity `"/dev/uio0"` from reader.c. -/
def defaultPath : String := "/dev/uio0"

/-- `path = "/dev/uio0"; if (argc > 1) path = argv[1];` — only the first
positional argument is consulted. -/
def selectPath : List String → String
  | [] => defaultPath
  | p :: _ => p

/-- Observable outcome of the reader process. -/
structure MainOut where
  path : String
  exitCode : Nat
  diagnostics : List String
  events : List Event

/-- `main` from reader.c: select the identity from the arguments, open it
read-only, mmap 4096 bytes with `PROT_READ`, run the 20-iteration loop,
unmap and exit 0.  `openOk`/`mmapOk` model the `open`/`mmap` collaborator
outcomes; each failure path prints one `perror` diagnostic and returns 1. -/
def mainSim (args : List String) (openOk mmapOk : Bool) (r : Region) : MainOut :=
  let p := selectPath args
  if openOk = false then ⟨p, 1, ["open"], []⟩
  else if mmapOk = false then ⟨p, 1, ["mmap"], []⟩
  else ⟨p, 0, [], runEvents r 20⟩

end DataReadTel

namespace DataReadTel

/-! Helper lemmas shared by several claims. -/

lemma applyAccesses_append (t1 t2 : List Access) :
    ∀ r : Region, applyAccesses r (t1 ++ t2) = applyAccesses (applyAccesses r t1) t2 := by
  induction t1 with
  | nil => intro r; rfl
  | cons a t ih => intro r; simp only [List.cons_append, applyAccesses]; exact ih _

lemma applyAccesses_runAccesses (n : Nat) :
    ∀ r : Region, applyAccesses r (runAccesses n) = r := by
  induction n with
  | zero => intro r; rfl
  | succ m ih =>
    intro r
    simp only [runAccesses, applyAccesses_append]
    exact ih _

lemma runAccesses_all_loads (n : Nat) :
    (runAccesses n).all Access.isLoad = true := by
  induction n with
  | zero => rfl
  | succ m ih => simp only [runAccesses, List.all_append, ih, Bool.and_true]; rfl

lemma sim_exit_mmio (s : KState) : (sim_exit s).mmio = s.mmio := by
  cases h : s.mmio with
  | none => simp only [sim_exit, kfreeStep, h]
  | some r =>
    simp only [sim_exit, kfreeStep, h]
    split <;> rfl

lemma simRegion_past_header (i : Nat) : simRegion (i + 12) = 0 := by
  simp only [simRegion, headerInit, store32, store8, zeroRegion,
    MAGIC, VERSION_WORD, STATUS_OK]
  repeat rw [if_neg (by omega)]

end DataReadTel

namespace DataReadTel

/-- C1: `sim_init` writes the header into the freshly allocated zeroed
4096-byte region before registering it: the magic constant at 0x000, the
packed version `major <<< 16 ||| minor` (1.0, i.e. 0x00010000) at 0x004, a
nonzero ready status at 0x008; the registered region already carries all
three stores (the registration attempt is the last event of the trace),
and every byte past the header is still zero. -/
theorem C1_init_header (i : Nat) :
    (sim_init true true).2 = InitRes.ok ∧
    (sim_init true true).1.registered = true ∧
    (sim_init true true).1.allocated = true ∧
    (sim_init true true).1.mmio = some simRegion ∧
    read32 simRegion 0x000 = MAGIC ∧
    read32 simRegion 0x004 = VERSION_WORD ∧
    VERSION_WORD = 1 <<< 16 ||| 0 ∧
    0 < read32 simRegion 0x008 ∧
    simRegion (i + 12) = 0 ∧
    simInitEvents true true =
      [.allocEv true MMIO_SIZE, .storeEv 0x000 MAGIC, .storeEv 0x004 VERSION_WORD,
       .storeEv 0x008 STATUS_OK, .registerEv true] := by
  refine ⟨rfl, rfl, rfl, rfl, by decide, by decide, by decide, by decide,
    simRegion_past_header i, rfl⟩

/-- C2: for every mapped view, one sample performs exactly the four
32-bit loads at `ACCEL_X`, `ACCEL_Y`, `ACCEL_Z`, `AIRSPEED` — in that
order, all loads, none at the magic (0x000) or status (0x008) offsets —
and returns exactly the four words read there. -/
theorem C2_sample_loads (r : Region) :
    (sampleT r).1 = (read32 r ACCEL_X, read32 r ACCEL_Y, read32 r ACCEL_Z,
      read32 r AIRSPEED) ∧
    (sampleT r).2 =
      [Access.load ACCEL_X, Access.load ACCEL_Y, Access.load ACCEL_Z,
       Access.load AIRSPEED] ∧
    (sampleT r).2.length = 4 ∧
    (sampleT r).2.contains (Access.load 0x000) = false ∧
    (sampleT r).2.contains (Access.load 0x008) = false ∧
    (sampleT r).2.all Access.isLoad = true := by
  refine ⟨rfl, rfl, rfl, ?_, ?_, ?_⟩
  · show sampleAccesses.contains (Access.load 0x000) = false
    decide
  · show sampleAccesses.contains (Access.load 0x008) = false
    decide
  · show sampleAccesses.all Access.isLoad = true
    decide

/-- C3: the reader's loop with count 20 terminates (it is a total
function of the count) and produces exactly 20 iterations, each one
rendered sample followed by one pause; it emits exactly 20 samples and 20
pauses, and its whole access trace is exactly the 20 per-iteration load
groups — 80 loads, none after the 20th sample's group. -/
theorem C3_run_twenty (r : Region) :
    runEvents r 20 = List.flatten (List.replicate 20
      [Event.sampleOut (read32 r ACCEL_X) (read32 r ACCEL_Y) (read32 r ACCEL_Z)
        (read32 r AIRSPEED), Event.pause]) ∧
    ((runEvents r 20).filter Event.isSample).length = 20 ∧
    ((runEvents r 20).filter fun e => !e.isSample).length = 20 ∧
    runAccesses 20 = List.flatten (List.replicate 20 sampleAccesses) ∧
    (runAccesses 20).length = 80 :=
  ⟨rfl, rfl, rfl, rfl, rfl⟩

/-- C4: when the UIO registration is rejected, `sim_init` fails with
-ENODEV and has already `kfree`d the region it allocated: the failure
state holds no live allocation and no registration, and the event trace
ends with the rollback `kfree` right after the failed registration. -/
theorem C4_register_fail_rollback :
    (sim_init true false).2 = InitRes.ENODEV ∧
    (sim_init true false).1.allocated = false ∧
    (sim_init true false).1.registered = false ∧
    (sim_init true false).1.faulted = false ∧
    simInitEvents true false =
      [.allocEv true MMIO_SIZE, .storeEv 0x000 MAGIC, .storeEv 0x004 VERSION_WORD,
       .storeEv 0x008 STATUS_OK, .registerEv false, .kfreeEv] :=
  ⟨rfl, rfl, rfl, rfl, rfl⟩

/-- C5: after a successful `sim_init` the magic and version words are
never mutated again: replaying any number of reader loop iterations onto a
region leaves the header snapshot unchanged (the reader only loads), and
the provider's only remaining operation, `sim_exit`, does not touch the
region contents either. -/
theorem C5_header_immutable (r : Region) (n : Nat) (s : KState) :
    headerSnapshot (applyAccesses r (runAccesses n)) = headerSnapshot r ∧
    (sim_exit s).mmio = s.mmio := by
  refine ⟨?_, sim_exit_mmio s⟩
  rw [applyAccesses_runAccesses]

/-- C6: resolving an identity to a readable region whose size is not
exactly 4096 bytes makes `open` fail with `SizeError`, and only an exact
4096-byte region yields a mapped view — the result is fully characterised,
so a wrong size never partially succeeds. -/
theorem C6_open_size_check (n : Nat) :
    openView (some { readable := true, size := n }) =
      (if n = PAGE then Except.ok { readOnly := true }
       else Except.error OpenError.SizeError) := by
  by_cases h : n = PAGE <;> simp [openView, h]

/-- C7: the reader consults only the first positional argument for the
identity, defaulting to `/dev/uio0`; it exits 0 when open and mmap both
succeed, and exits 1 with exactly one diagnostic printed when either
fails. -/
theorem C7_cli_exit_codes (args : List String) (p : String) (rest : List String)
    (mK : Bool) (r : Region) :
    selectPath [] = defaultPath ∧
    selectPath (p :: rest) = p ∧
    (mainSim args true true r).path = selectPath args ∧
    (mainSim args true true r).exitCode = 0 ∧
    (mainSim args true true r).diagnostics = [] ∧
    (mainSim args false mK r).exitCode = 1 ∧
    (mainSim args false mK r).diagnostics.length = 1 ∧
    (mainSim args false mK r).events = [] ∧
    (mainSim args true false r).exitCode = 1 ∧
    (mainSim args true false r).diagnostics.length = 1 ∧
    (mainSim args true false r).events = [] :=
  ⟨rfl, rfl, rfl, rfl, rfl, rfl, rfl, rfl, rfl, rfl, rfl⟩

/-- C8 counterexample: teardown is not idempotent as claimed.  After a
successful `sim_init`, the first `sim_exit` completes without fault, but a
second `sim_exit` passes the same stale non-null `mmio` pointer to `kfree`
again (the code never clears it), a double free — the modelled fault flag
is set. -/
theorem C8_double_teardown_faults :
    (sim_exit (sim_init true true).1).faulted = false ∧
    (sim_exit (sim_exit (sim_init true true).1)).faulted = true :=
  ⟨rfl, rfl⟩

/-- C8 amended: a single `sim_exit` after a successful `sim_init`
completes without fault, unregisters and releases the backing memory, and
does so regardless of whether a reader mapping was never closed (teardown
never consults the reader side); but a second `sim_exit` double-frees,
because the static pointer is not cleared. -/
theorem C8_teardown_reader_independent (m : Bool) :
    (sysTeardown ⟨(sim_init true true).1, m⟩).prov.faulted = false ∧
    (sysTeardown ⟨(sim_init true true).1, m⟩).prov.allocated = false ∧
    (sysTeardown ⟨(sim_init true true).1, m⟩).prov.registered = false ∧
    (sysTeardown ⟨(sim_init true true).1, m⟩).readerMapped = m ∧
    (sim_exit (sim_exit (sim_init true true).1)).faulted = true :=
  ⟨rfl, rfl, rfl, rfl, rfl⟩

/-- C9: every access the reader performs is an in-bounds naturally
aligned 4-byte load: the trace offsets are exactly 0x010, 0x014, 0x018,
0x050, each is a multiple of 4, each load's last byte (at most 0x053) lies
strictly inside the 4096-byte page, and the bounds-checked accessor
returns `some` at all four — it never takes its out-of-bounds branch. -/
theorem C9_inbounds_loads (r : Region) :
    (sampleT r).2 =
      [Access.load ACCEL_X, Access.load ACCEL_Y, Access.load ACCEL_Z,
       Access.load AIRSPEED] ∧
    ACCEL_X % 4 = 0 ∧ ACCEL_Y % 4 = 0 ∧ ACCEL_Z % 4 = 0 ∧ AIRSPEED % 4 = 0 ∧
    ACCEL_X + 3 < PAGE ∧ ACCEL_Y + 3 < PAGE ∧ ACCEL_Z + 3 < PAGE ∧
    AIRSPEED + 3 < PAGE ∧ AIRSPEED + 3 = 0x53 ∧
    load32? r ACCEL_X = some (read32 r ACCEL_X) ∧
    load32? r ACCEL_Y = some (read32 r ACCEL_Y) ∧
    load32? r ACCEL_Z = some (read32 r ACCEL_Z) ∧
    load32? r AIRSPEED = some (read32 r AIRSPEED) :=
  ⟨rfl, by decide, by decide, by decide, by decide, by decide, by decide,
    by decide, by decide, by decide, rfl, rfl, rfl, rfl⟩

/-- C10: the reader never modifies the register block: its mapping is
read-only, its access trace for any number of iterations consists of loads
only, and replaying that trace onto any region returns the region
unchanged — every one of the 4096 bytes is exactly as the provider left
it. -/
theorem C10_reader_no_writes (r : Region) (n : Nat) :
    openView (some { readable := true, size := PAGE }) =
      Except.ok { readOnly := true } ∧
    (runAccesses n).all Access.isLoad = true ∧
    applyAccesses r (runAccesses n) = r := by
  refine ⟨rfl, runAccesses_all_loads n, applyAccesses_runAccesses n r⟩

end DataReadTel
